import Mathlib

/-!
Shallow embedding of the convergence-loop core of the repository:
`site_selector_agent.py` (Candidate Selection Stage) and
`snippet_optimizer_agent.py` (Entry Optimization Stage and the Convergence
Loop in `main`).  Python dicts are modelled as structures; a `.get(k, d)`
on a possibly-absent key is modelled with `Option` fields and `Option.getD`.
The two LLM oracle calls are external collaborators: they are modelled as
inputs describing the outcome the surrounding code distinguishes
(transport error raised, or raw text together with how `json.loads` of the
code-fence-stripped text turned out).
-/

namespace Hackathon

/-- Model of one search-result dict as used by both agents: keys `title`,
`link`, `snippet` (always present on the entries the loop handles), and
`hasError` modelling the presence of an `"error"` key (the error-placeholder
check `"error" in result`). -/
structure SearchResult where
  title : String
  link : String
  snippet : String
  hasError : Bool
deriving DecidableEq, Repr, Inhabited

/-- Model of one record of the Judge Oracle's parsed JSON array, before
validation in `select_sites`: each field is `Option` because the code reads
it with `site.get(key, default)`. `confidence` and `original_index` are JSON
numbers, modelled as `Int`. -/
structure RawSite where
  url : Option String
  title : Option String
  confidence : Option Int
  reason : Option String
  expected_content : Option String
  original_index : Option Int
deriving DecidableEq, Repr

/-- An element of the parsed JSON array: either a JSON object (`dict`) or
some other JSON value, which `isinstance(site, dict)` rejects. -/
inductive JItem where
  | dict (site : RawSite)
  | nondict
deriving DecidableEq, Repr

/-- A validated selection record as built by `select_sites` (keys `url`,
`title`, `confidence`, `reason`, `expected_content`, `original_index`) or by
`_fallback_selection`.  Neither constructor puts a `snippet` key in the
dict, so `snippet` is `none` on every record the Stage produces; the field
exists because the Loop later reads `s.get('snippet')`. -/
structure SelectedSite where
  url : String
  title : String
  confidence : Int
  reason : String
  expected_content : String
  original_index : Int
  snippet : Option String
deriving DecidableEq, Repr

/-- The validated record `select_sites` builds from one oracle record,
filling missing optional fields with the defaults `title="Unknown"`,
`confidence=5`, `reason="No reason provided"`,
`expected_content="General information"`, `original_index=-1`. -/
def validatedEntry (s : RawSite) : SelectedSite :=
  { url := s.url.getD ""
    title := s.title.getD "Unknown"
    confidence := s.confidence.getD 5
    reason := s.reason.getD "No reason provided"
    expected_content := s.expected_content.getD "General information"
    original_index := s.original_index.getD (-1)
    snippet := none }

/-- Validation loop of `select_sites`: keep each element that is a dict
containing a `url` key. -/
def validateSites (items : List JItem) : List SelectedSite :=
  items.filterMap fun it =>
    match it with
    | .dict s => if s.url.isSome then some (validatedEntry s) else none
    | .nondict => none

/-- The record `_fallback_selection` appends for the candidate at position
`i` of the input list. -/
def mkFallbackEntry (i : Nat) (r : SearchResult) : SelectedSite :=
  { url := r.link
    title := r.title
    confidence := 7
    reason := "Fallback selection due to LLM analysis failure"
    expected_content := "General information about the topic"
    original_index := (i : Int)
    snippet := none }

/-- The `for i, result in enumerate(...)` body of `_fallback_selection`:
walk the (already sliced) list, keeping non-error entries, numbering from
`i`. -/
def fallbackAux (i : Nat) : List SearchResult → List SelectedSite
  | [] => []
  | r :: rs =>
      if r.hasError then fallbackAux (i + 1) rs
      else mkFallbackEntry i r :: fallbackAux (i + 1) rs

/-- `SiteSelectorAgent._fallback_selection`: iterate over
`search_results[:max_sites]` and keep the entries without an `"error"`
key, each with confidence 7 and the fallback rationale. -/
def fallback_selection (search_results : List SearchResult) (max_sites : Nat) :
    List SelectedSite :=
  fallbackAux 0 (search_results.take max_sites)

/-- How `json.loads` of the code-fence-stripped oracle text turned out:
`decodeError` models a raised `json.JSONDecodeError` (carrying `str(e)`),
`notAList` models a successful parse whose value is not a Python list (the
code then raises `ValueError("LLM response is not a list")`), and
`parsedList` carries the parsed array. -/
inductive ParseOutcome where
  | decodeError (msg : String)
  | notAList
  | parsedList (items : List JItem)
deriving DecidableEq, Repr

/-- Outcome of one Judge Oracle call: `apiError` models an `OpenAIError`
raised by `chat_completion` (carrying `str(e)`), `ok raw p` models a
returned text `raw` whose parse attempt gave `p`. -/
inductive OracleCall where
  | apiError (msg : String)
  | ok (raw : String) (p : ParseOutcome)
deriving DecidableEq, Repr

/-- Whether this oracle outcome sends `select_sites` down a failure path
(every case except a returned text that parses as a list). -/
def OracleCall.isFailure : OracleCall → Bool
  | .ok _ (.parsedList _) => false
  | _ => true

/-- The dict returned by `select_sites`: keys `selected_sites`,
`raw_llm_response` (a string or `None`), `success`, `error` (a string or
`None`). -/
structure SelectResult where
  selected_sites : List SelectedSite
  raw_llm_response : Option String
  success : Bool
  error : Option String
deriving DecidableEq, Repr

/-- `SiteSelectorAgent.select_sites`, as a function of the input list, the
`max_sites` bound and the Judge Oracle call's outcome.
On a parsed list: return the validated records with `success=True`,
`error=None` and the raw text preserved.  On `json.JSONDecodeError`: fall
back, `success=False`, raw text preserved, `error` names the parse failure.
On a parsed non-list the raised `ValueError` is caught by the outer
`except Exception` handler, which returns the fallback with
`raw_llm_response=None`.  On `OpenAIError`: fallback with
`raw_llm_response=None` and an API-error message. -/
def select_sites (search_results : List SearchResult) (max_sites : Nat)
    (oracle : OracleCall) : SelectResult :=
  match oracle with
  | .ok raw (.parsedList items) =>
      { selected_sites := validateSites items
        raw_llm_response := some raw
        success := true
        error := none }
  | .ok raw (.decodeError msg) =>
      { selected_sites := fallback_selection search_results max_sites
        raw_llm_response := some raw
        success := false
        error := some ("JSON parsing failed: " ++ msg) }
  | .ok _ .notAList =>
      { selected_sites := fallback_selection search_results max_sites
        raw_llm_response := none
        success := false
        error := some "Unexpected error: LLM response is not a list" }
  | .apiError msg =>
      { selected_sites := fallback_selection search_results max_sites
        raw_llm_response := none
        success := false
        error := some ("OpenAI API error: " ++ msg) }

/-- The JSON object returned by the Proposer Oracle in
`SnippetOptimizerAgent.optimize_snippet`; the Loop reads its keys with
`new_entry.get(key, old_value)`, so each field is `Option`. -/
structure NewEntry where
  title : Option String
  snippet : Option String
  link : Option String
deriving DecidableEq, Repr

/-- Outcome of one Proposer Oracle call inside `optimize_snippet`'s `try`
block: either the call and `json.loads` succeed with a parsed record, or
some exception is raised (transport error or parse failure), carrying
`str(e)`. -/
inductive ProposerCall where
  | raiseError (msg : String)
  | ok (entry : NewEntry)
deriving DecidableEq, Repr

/-- The dict returned by `optimize_snippet`: keys `new_entry`, `success`,
`error` (the `raw_llm_response` key is not read by the Loop and is
omitted). -/
structure OptimizeResult where
  new_entry : Option NewEntry
  success : Bool
  error : Option String
deriving DecidableEq, Repr

/-- `SnippetOptimizerAgent.optimize_snippet` as a function of the Proposer
Oracle call's outcome: on success return the parsed entry with
`success=True`, `error=None`; on any exception return `new_entry=None`,
`success=False`, `error=str(e)`. -/
def optimize_snippet (oracle : ProposerCall) : OptimizeResult :=
  match oracle with
  | .ok entry => { new_entry := some entry, success := true, error := none }
  | .raiseError msg => { new_entry := none, success := false, error := some msg }

/-- The in-place overwrite of the target candidate in `main`:
`search_results[i][k] = new_entry.get(k, search_results[i][k])` for
`k` in `title`, `snippet`, `link`. -/
def applyNewEntry (old : SearchResult) (ne : NewEntry) : SearchResult :=
  { old with
      title := ne.title.getD old.title
      snippet := ne.snippet.getD old.snippet
      link := ne.link.getD old.link }

/-- The per-entry match test of `main`'s inner loop:
`s.get('original_index', -1) == mcp_entry_index or s.get('title', '') ==
mcp_title or s.get('url', '') == mcp_url`. -/
def entryMatches (s : SelectedSite) (mcpIdx : Nat) (mcpTitle mcpUrl : String) :
    Bool :=
  decide (s.original_index = (mcpIdx : Int)) || decide (s.title = mcpTitle) ||
    decide (s.url = mcpUrl)

/-- The top-level convergence test of `main`: `mcp_entry_index in
selected_indices`, else any selected title equals the target's title, else
any selected url equals the target's link. -/
def isSelected (sites : List SelectedSite) (mcpIdx : Nat)
    (mcpTitle mcpUrl : String) : Bool :=
  sites.any (fun s => decide (s.original_index = (mcpIdx : Int))) ||
    sites.any (fun s => decide (s.title = mcpTitle)) ||
    sites.any (fun s => decide (s.url = mcpUrl))

/-- The artifact extraction of `main` for one matching verdict entry `s`:
`snippet_text = s.get('snippet') or s.get('expected_content') or ''`, and
if that is falsy, fall back to the target candidate's own current snippet.
Python `or` treats `None` and the empty string as falsy. -/
def extractSnippet (s : SelectedSite) (mcpSnippet : String) : String :=
  let snippet_text :=
    match s.snippet with
    | some t => if t = "" then (if s.expected_content = "" then "" else s.expected_content) else t
    | none => if s.expected_content = "" then "" else s.expected_content
  if snippet_text = "" then mcpSnippet else snippet_text

/-- Terminal state of the Loop in `main`: converged in some round with the
artifact written to `target_snippet.txt` (`none` when no write happened),
exhausted after the given number of rounds, or aborted in some round with
the optimization failure reason. -/
inductive LoopOutcome where
  | converged (round : Nat) (artifact : Option String)
  | exhausted (rounds : Nat)
  | aborted (round : Nat) (reason : String)
deriving DecidableEq, Repr

/-- The round in which the Loop converged, if it did. -/
def LoopOutcome.convergedAt : LoopOutcome → Option Nat
  | .converged r _ => some r
  | _ => none

/-- Result of one Loop run: the terminal outcome, the number of Selection
(Judge) calls, the number of Optimization (Proposer) calls, and the final
candidate list. -/
structure LoopResult where
  outcome : LoopOutcome
  judgeCalls : Nat
  proposerCalls : Nat
  finalResults : List SearchResult
deriving DecidableEq, Repr

/-- The body of `main`'s `for round_num in range(1, max_rounds + 1)` loop,
with `fuel` rounds remaining, numbering the current round `roundNum`.
Each round: call `select_sites` with `max_sites=3`; if the triple-match
test selects the target, converge, writing (for each matching entry, last
write winning) the extracted snippet; otherwise call `optimize_snippet`;
on success overwrite the target candidate in place and continue, on
failure abort with the failure reason.  When the rounds run out the Loop
is exhausted (`for`/`else`). -/
def loopAux (judges : Nat → OracleCall) (proposers : Nat → ProposerCall)
    (mcpIdx : Nat) (roundNum : Nat) :
    Nat → List SearchResult → Nat → Nat → LoopResult
  | 0, results, jc, pc => ⟨.exhausted (roundNum - 1), jc, pc, results⟩
  | fuel + 1, results, jc, pc =>
      if isSelected (select_sites results 3 (judges roundNum)).selected_sites mcpIdx
          (results.getD mcpIdx default).title (results.getD mcpIdx default).link then
        ⟨.converged roundNum
            (((select_sites results 3 (judges roundNum)).selected_sites.filter
                (fun s => entryMatches s mcpIdx (results.getD mcpIdx default).title
                  (results.getD mcpIdx default).link)).getLast?.map
              fun s => extractSnippet s (results.getD mcpIdx default).snippet),
          jc + 1, pc, results⟩
      else
        -- `optimize_snippet` always returns `new_entry = some _` when
        -- `success` is true, so the `getD` default below is never used.
        if (optimize_snippet (proposers roundNum)).success then
          loopAux judges proposers mcpIdx (roundNum + 1) fuel
            (results.set mcpIdx (applyNewEntry (results.getD mcpIdx default)
              ((optimize_snippet (proposers roundNum)).new_entry.getD ⟨none, none, none⟩)))
            (jc + 1) (pc + 1)
        else
          ⟨.aborted roundNum ((optimize_snippet (proposers roundNum)).error.getD ""),
            jc + 1, pc + 1, results⟩

/-- The whole feedback loop of `snippet_optimizer_agent.main`, rounds
numbered from 1 up to `maxRounds` (the code sets `max_rounds = 5`). -/
def runLoop (judges : Nat → OracleCall) (proposers : Nat → ProposerCall)
    (mcpIdx : Nat) (maxRounds : Nat) (results : List SearchResult) : LoopResult :=
  loopAux judges proposers mcpIdx 1 maxRounds results 0 0

/-- Selection built from the spec sentence for the fallback path, for
comparison with the code: "the first `max_selected` non-error candidates
from the input list", each as a fallback record (confidence 7, fallback
rationale) keeping its original position. -/
def specFirstNonErrorSelection (results : List SearchResult)
    (max_selected : Nat) : List SelectedSite :=
  ((results.enum.filter fun p => !p.2.hasError).take max_selected).map
    fun p => mkFallbackEntry p.1 p.2

/-- Selection the fallback code actually computes, phrased from the amended
claim: the non-error candidates among the first `max_selected` entries of
the input list, each as a fallback record at its original position. -/
def specPrefixNonErrorSelection (results : List SearchResult)
    (max_selected : Nat) : List SelectedSite :=
  (((results.take max_selected).enum).filter fun p => !p.2.hasError).map
    fun p => mkFallbackEntry p.1 p.2

/-- A non-error candidate playing the target (MCP Test Entry) role in
concrete runs. -/
def sampleTarget : SearchResult :=
  { title := "MCP Test Entry", link := "https://cloudaiq.de", snippet := "generic snippet",
    hasError := false }

/-- An error-placeholder candidate (a result dict carrying an `"error"`
key). -/
def sampleError : SearchResult :=
  { title := "E", link := "e.com", snippet := "se", hasError := true }

/-- An ordinary organic candidate. -/
def sampleOther : SearchResult :=
  { title := "NexGen Cloud", link := "https://www.nexgencloud.com", snippet := "sn",
    hasError := false }

/-- Judge double whose output parses as the empty list: it never selects
anything. -/
def neverJudge : Nat → OracleCall :=
  fun _ => .ok "[]" (.parsedList [])

/-- Judge double whose transport always raises an `OpenAIError`. -/
def downJudge : Nat → OracleCall :=
  fun _ => .apiError "rate limited"

/-- A verdict record matching `sampleTarget` only by URL: its
position-reference is wrong (99) and its title differs. -/
def urlOnlySite : RawSite :=
  { url := some "https://cloudaiq.de", title := some "Some Other Title",
    confidence := some 9, reason := none, expected_content := some "EU cloud facts",
    original_index := some 99 }

/-- Judge double that selects one record matching the target only by URL,
with a wrong position-reference and a different title. -/
def urlOnlyJudge : Nat → OracleCall :=
  fun _ => .ok "judge raw" (.parsedList [.dict urlOnlySite])

/-- Proposer double that always succeeds with a fixed rewrite. -/
def okProposer : Nat → ProposerCall :=
  fun _ => .ok { title := some "T2", snippet := some "S2", link := some "L2" }

/-- Proposer double that always raises a transport error. -/
def failProposer : Nat → ProposerCall :=
  fun _ => .raiseError "transport error: connection refused"

/-- An oracle record whose confidence is out of range. -/
def overConfSite : RawSite :=
  { url := some "u", title := none, confidence := some 15, reason := none,
    expected_content := none, original_index := none }

/-- One of four well-formed oracle records used to exceed `max_sites`. -/
def lowConfSite (k : Nat) : RawSite :=
  { url := some ("u" ++ toString k), title := none, confidence := some 2,
    reason := none, expected_content := none, original_index := some (k : Int) }

section Helpers

variable {judges : Nat → OracleCall} {proposers : Nat → ProposerCall}

lemma select_sites_of_isFailure (results : List SearchResult) (max_sites : Nat)
    {oracle : OracleCall} (h : oracle.isFailure = true) :
    (select_sites results max_sites oracle).selected_sites =
      fallback_selection results max_sites := by
  cases oracle with
  | apiError msg => rfl
  | ok raw p =>
      cases p with
      | decodeError msg => rfl
      | notAList => rfl
      | parsedList items => simp [OracleCall.isFailure] at h

lemma fallbackAux_cons (i : Nat) (r : SearchResult) (rs : List SearchResult) :
    fallbackAux i (r :: rs) =
      if r.hasError then fallbackAux (i + 1) rs
      else mkFallbackEntry i r :: fallbackAux (i + 1) rs := rfl

lemma loopAux_zero (mcpIdx roundNum : Nat) (results : List SearchResult)
    (jc pc : Nat) :
    loopAux judges proposers mcpIdx roundNum 0 results jc pc =
      ⟨.exhausted (roundNum - 1), jc, pc, results⟩ := rfl

lemma loopAux_succ (mcpIdx roundNum fuel : Nat) (results : List SearchResult)
    (jc pc : Nat) :
    loopAux judges proposers mcpIdx roundNum (fuel + 1) results jc pc =
      if isSelected (select_sites results 3 (judges roundNum)).selected_sites mcpIdx
          (results.getD mcpIdx default).title (results.getD mcpIdx default).link then
        ⟨.converged roundNum
            (((select_sites results 3 (judges roundNum)).selected_sites.filter
                (fun s => entryMatches s mcpIdx (results.getD mcpIdx default).title
                  (results.getD mcpIdx default).link)).getLast?.map
              fun s => extractSnippet s (results.getD mcpIdx default).snippet),
          jc + 1, pc, results⟩
      else
        if (optimize_snippet (proposers roundNum)).success then
          loopAux judges proposers mcpIdx (roundNum + 1) fuel
            (results.set mcpIdx (applyNewEntry (results.getD mcpIdx default)
              ((optimize_snippet (proposers roundNum)).new_entry.getD ⟨none, none, none⟩)))
            (jc + 1) (pc + 1)
        else
          ⟨.aborted roundNum ((optimize_snippet (proposers roundNum)).error.getD ""),
            jc + 1, pc + 1, results⟩ := rfl

lemma fallbackAux_eq_enumFrom (l : List SearchResult) :
    ∀ i, fallbackAux i l =
      ((List.enumFrom i l).filter fun p => !p.2.hasError).map
        fun p => mkFallbackEntry p.1 p.2 := by
  induction l with
  | nil => intro i; simp [fallbackAux]
  | cons r rs ih =>
      intro i
      by_cases h : r.hasError
      · simp [fallbackAux, h, ih]
      · simp [fallbackAux, h, ih]

lemma fallback_selection_eq_spec (results : List SearchResult) (max_sites : Nat) :
    fallback_selection results max_sites =
      specPrefixNonErrorSelection results max_sites := by
  simp [fallback_selection, specPrefixNonErrorSelection, fallbackAux_eq_enumFrom,
    List.enum]

lemma length_fallbackAux_le (l : List SearchResult) :
    ∀ i, (fallbackAux i l).length ≤ l.length := by
  induction l with
  | nil => intro i; simp [fallbackAux]
  | cons r rs ih =>
      intro i
      by_cases h : r.hasError
      · simpa [fallbackAux, h] using Nat.le_succ_of_le (ih (i + 1))
      · simpa [fallbackAux, h] using Nat.succ_le_succ (ih (i + 1))

lemma length_fallback_selection_le (results : List SearchResult) (max_sites : Nat) :
    (fallback_selection results max_sites).length ≤ max_sites := by
  calc (fallback_selection results max_sites).length
      ≤ (results.take max_sites).length := length_fallbackAux_le _ 0
    _ ≤ max_sites := by simp

lemma mem_fallbackAux {e : SelectedSite} (l : List SearchResult) :
    ∀ i, e ∈ fallbackAux i l →
      ∃ j, ∃ h : j < l.length,
        (l.get ⟨j, h⟩).hasError = false ∧ e = mkFallbackEntry (i + j) (l.get ⟨j, h⟩) := by
  induction l with
  | nil => intro i h; simp [fallbackAux] at h
  | cons r rs ih =>
      intro i hmem
      cases hr : r.hasError with
      | true =>
          rw [fallbackAux_cons, if_pos hr] at hmem
          obtain ⟨j, hj, hok, he⟩ := ih (i + 1) hmem
          exact ⟨j + 1, Nat.succ_lt_succ hj, hok,
            by simpa [Nat.add_assoc, Nat.add_comm 1 j] using he⟩
      | false =>
          rw [fallbackAux_cons, if_neg (by simp [hr])] at hmem
          rcases List.mem_cons.mp hmem with he | hmem'
          · exact ⟨0, Nat.succ_pos _, hr, by simpa using he⟩
          · obtain ⟨j, hj, hok, he⟩ := ih (i + 1) hmem'
            exact ⟨j + 1, Nat.succ_lt_succ hj, hok,
              by simpa [Nat.add_assoc, Nat.add_comm 1 j] using he⟩

lemma fallbackAux_mem_of_index (l : List SearchResult) :
    ∀ i j, ∀ h : j < l.length, (l.get ⟨j, h⟩).hasError = false →
      ∃ e ∈ fallbackAux i l, e.original_index = ((i + j : Nat) : Int) := by
  induction l with
  | nil => intro i j h; exact absurd h (by simp)
  | cons r rs ih =>
      intro i j h hok
      match j with
      | 0 =>
          refine ⟨mkFallbackEntry i r, ?_, by simp [mkFallbackEntry]⟩
          have hr : r.hasError = false := by simpa using hok
          rw [fallbackAux_cons, if_neg (by simp [hr])]
          exact List.mem_cons_self _ _
      | j' + 1 =>
          obtain ⟨e, hmem, hidx⟩ := ih (i + 1) j' (Nat.lt_of_succ_lt_succ h) (by simpa using hok)
          refine ⟨e, ?_, by simpa [Nat.add_assoc, Nat.add_comm 1 j'] using hidx⟩
          cases hr : r.hasError with
          | true => rw [fallbackAux_cons, if_pos hr]; exact hmem
          | false =>
              rw [fallbackAux_cons, if_neg (by simp [hr])]
              exact List.mem_cons_of_mem _ hmem

lemma mem_fallback_selection {e : SelectedSite} {results : List SearchResult}
    {max_sites : Nat} (h : e ∈ fallback_selection results max_sites) :
    ∃ j, ∃ hj : j < results.length, j < max_sites ∧
      (results.get ⟨j, hj⟩).hasError = false ∧
      e = mkFallbackEntry j (results.get ⟨j, hj⟩) := by
  obtain ⟨j, hj, hok, he⟩ := mem_fallbackAux (results.take max_sites) 0 h
  have hj' : j < results.length := by
    have := hj; simp at this; omega
  have hjm : j < max_sites := by
    have := hj; simp at this; omega
  have hget : (results.take max_sites).get ⟨j, hj⟩ = results.get ⟨j, hj'⟩ := by
    simp [List.get_eq_getElem, List.getElem_take]
  refine ⟨j, hj', hjm, ?_, ?_⟩
  · rw [← hget]; exact hok
  · rw [← hget]; simpa using he

lemma fallback_selection_mem_of_index {results : List SearchResult}
    {max_sites mcpIdx : Nat} (hm : mcpIdx < max_sites)
    (hlen : mcpIdx < results.length)
    (herr : (results.getD mcpIdx default).hasError = false) :
    ∃ e ∈ fallback_selection results max_sites,
      e.original_index = (mcpIdx : Int) := by
  have hjt : mcpIdx < (results.take max_sites).length := by simp; omega
  have hget : (results.take max_sites).get ⟨mcpIdx, hjt⟩ = results.getD mcpIdx default := by
    rw [List.getD_eq_getElem?_getD]
    simp [List.get_eq_getElem, List.getElem_take, List.getElem?_eq_getElem hlen]
  obtain ⟨e, hmem, hidx⟩ :=
    fallbackAux_mem_of_index (results.take max_sites) 0 mcpIdx hjt (by rw [hget]; exact herr)
  exact ⟨e, hmem, by simpa using hidx⟩

lemma mem_validateSites {e : SelectedSite} :
    ∀ {items : List JItem}, e ∈ validateSites items →
      ∃ s : RawSite, JItem.dict s ∈ items ∧ s.url.isSome = true ∧
        e = validatedEntry s := by
  intro items
  induction items with
  | nil => intro h; simp [validateSites] at h
  | cons it rest ih =>
      intro h
      cases it with
      | nondict =>
          have hv : validateSites (JItem.nondict :: rest) = validateSites rest := by
            simp [validateSites]
          rw [hv] at h
          obtain ⟨s, hs, hu, he⟩ := ih h
          exact ⟨s, List.mem_cons_of_mem _ hs, hu, he⟩
      | dict s =>
          by_cases hu : s.url.isSome = true
          · have hv : validateSites (JItem.dict s :: rest) =
                validatedEntry s :: validateSites rest := by
              simp [validateSites, hu]
            rw [hv] at h
            rcases List.mem_cons.mp h with he | h'
            · exact ⟨s, List.mem_cons_self _ _, hu, he⟩
            · obtain ⟨s', hs', hu', he'⟩ := ih h'
              exact ⟨s', List.mem_cons_of_mem _ hs', hu', he'⟩
          · have hv : validateSites (JItem.dict s :: rest) = validateSites rest := by
              simp [validateSites, hu]
            rw [hv] at h
            obtain ⟨s', hs', hu', he'⟩ := ih h
            exact ⟨s', List.mem_cons_of_mem _ hs', hu', he'⟩

lemma isSelected_true_iff (sites : List SelectedSite) (mcpIdx : Nat)
    (mcpTitle mcpUrl : String) :
    isSelected sites mcpIdx mcpTitle mcpUrl = true ↔
      ∃ s ∈ sites, s.original_index = (mcpIdx : Int) ∨ s.title = mcpTitle ∨
        s.url = mcpUrl := by
  simp only [isSelected, Bool.or_eq_true, List.any_eq_true, decide_eq_true_iff]
  constructor
  · rintro ((⟨s, hs, hp⟩ | ⟨s, hs, hp⟩) | ⟨s, hs, hp⟩)
    · exact ⟨s, hs, Or.inl hp⟩
    · exact ⟨s, hs, Or.inr (Or.inl hp)⟩
    · exact ⟨s, hs, Or.inr (Or.inr hp)⟩
  · rintro ⟨s, hs, (hp | hp | hp)⟩
    · exact Or.inl (Or.inl ⟨s, hs, hp⟩)
    · exact Or.inl (Or.inr ⟨s, hs, hp⟩)
    · exact Or.inr ⟨s, hs, hp⟩

lemma entryMatches_true_iff (s : SelectedSite) (mcpIdx : Nat)
    (mcpTitle mcpUrl : String) :
    entryMatches s mcpIdx mcpTitle mcpUrl = true ↔
      s.original_index = (mcpIdx : Int) ∨ s.title = mcpTitle ∨ s.url = mcpUrl := by
  simp [entryMatches, or_assoc]

lemma loopAux_convergedAt_le {mcpIdx : Nat} :
    ∀ fuel roundNum results jc pc r,
      (loopAux judges proposers mcpIdx roundNum fuel results jc pc).outcome.convergedAt
        = some r → roundNum ≤ r := by
  intro fuel
  induction fuel with
  | zero =>
      intro roundNum results jc pc r h
      rw [loopAux_zero] at h
      simp [LoopOutcome.convergedAt] at h
  | succ fuel ih =>
      intro roundNum results jc pc r h
      rw [loopAux_succ] at h
      by_cases hsel : isSelected (select_sites results 3 (judges roundNum)).selected_sites
          mcpIdx (results.getD mcpIdx default).title (results.getD mcpIdx default).link = true
      · rw [if_pos hsel] at h
        simp only [LoopOutcome.convergedAt, Option.some.injEq] at h
        exact Nat.le_of_eq h
      · rw [if_neg hsel] at h
        by_cases hsucc : (optimize_snippet (proposers roundNum)).success = true
        · rw [if_pos hsucc] at h
          exact Nat.le_of_succ_le (ih (roundNum + 1) _ _ _ r h)
        · rw [if_neg hsucc] at h
          simp [LoopOutcome.convergedAt] at h

lemma loopAux_never_selected (mcpIdx : Nat)
    (hjudge : ∀ n rs, isSelected (select_sites rs 3 (judges n)).selected_sites mcpIdx
        (rs.getD mcpIdx default).title (rs.getD mcpIdx default).link = false)
    (hprop : ∀ n, ∃ e, proposers n = ProposerCall.ok e) :
    ∀ fuel roundNum results jc pc,
      (loopAux judges proposers mcpIdx roundNum fuel results jc pc).outcome =
          .exhausted (roundNum + fuel - 1) ∧
        (loopAux judges proposers mcpIdx roundNum fuel results jc pc).judgeCalls
          = jc + fuel ∧
        (loopAux judges proposers mcpIdx roundNum fuel results jc pc).proposerCalls
          = pc + fuel := by
  intro fuel
  induction fuel with
  | zero =>
      intro roundNum results jc pc
      rw [loopAux_zero]
      exact ⟨rfl, rfl, rfl⟩
  | succ fuel ih =>
      intro roundNum results jc pc
      have hns : ¬ (isSelected (select_sites results 3 (judges roundNum)).selected_sites
          mcpIdx (results.getD mcpIdx default).title
          (results.getD mcpIdx default).link = true) := by
        rw [hjudge roundNum results]
        exact Bool.false_ne_true
      rw [loopAux_succ, if_neg hns]
      obtain ⟨e, he⟩ := hprop roundNum
      rw [he,
        if_pos (show (optimize_snippet (ProposerCall.ok e)).success = true from rfl)]
      obtain ⟨h1, h2, h3⟩ := ih (roundNum + 1) _ (jc + 1) (pc + 1)
      refine ⟨?_, ?_, ?_⟩
      · rw [h1]; congr 1; omega
      · rw [h2]; omega
      · rw [h3]; omega

lemma loopAux_frame (mcpIdx : Nat) :
    ∀ fuel roundNum results jc pc,
      ((loopAux judges proposers mcpIdx roundNum fuel results jc pc).finalResults.length
          = results.length) ∧
        ∀ j, j ≠ mcpIdx →
          (loopAux judges proposers mcpIdx roundNum fuel results jc pc).finalResults[j]?
            = results[j]? := by
  intro fuel
  induction fuel with
  | zero =>
      intro roundNum results jc pc
      rw [loopAux_zero]
      exact ⟨rfl, fun j hj => rfl⟩
  | succ fuel ih =>
      intro roundNum results jc pc
      rw [loopAux_succ]
      by_cases hsel : isSelected (select_sites results 3 (judges roundNum)).selected_sites
          mcpIdx (results.getD mcpIdx default).title (results.getD mcpIdx default).link = true
      · rw [if_pos hsel]
        exact ⟨rfl, fun j hj => rfl⟩
      · rw [if_neg hsel]
        by_cases hsucc : (optimize_snippet (proposers roundNum)).success = true
        · rw [if_pos hsucc]
          obtain ⟨h1, h2⟩ := ih (roundNum + 1)
            (results.set mcpIdx (applyNewEntry (results.getD mcpIdx default)
              ((optimize_snippet (proposers roundNum)).new_entry.getD ⟨none, none, none⟩)))
            (jc + 1) (pc + 1)
          refine ⟨?_, ?_⟩
          · rw [h1, List.length_set]
          · intro j hj
            rw [h2 j hj, List.getElem?_set_ne (Ne.symm hj)]
        · rw [if_neg hsucc]
          exact ⟨rfl, fun j hj => rfl⟩

end Helpers

/-- C5 counterexample: with the candidate list `[error entry, good entry]`
and `max_selected = 1`, a failed Judge call makes `select_sites` return the
empty selection (the code slices to the first 1 entries and only then
filters out error placeholders), which differs from "the first 1 non-error
candidates of the input list" as the claim states. -/
theorem c5_fallback_first_nonerror_counterexample :
    (select_sites [sampleError, sampleTarget] 1
        (OracleCall.apiError "net down")).selected_sites ≠
      specFirstNonErrorSelection [sampleError, sampleTarget] 1 := by
  decide

/-- C5 (amended): whenever the Judge Oracle call fails or its output is not
parseable as a list of records, the returned selection equals the
*non-error candidates among the first `max_selected` entries* of the input
list (not the first `max_selected` non-error candidates), each with
confidence exactly 7 and the fallback rationale; it never returns more than
`max_selected` entries and never includes an error-flagged candidate. -/
theorem c5_fallback_selection_contents (results : List SearchResult)
    (max_selected : Nat) (oracle : OracleCall) (hfail : oracle.isFailure = true) :
    (select_sites results max_selected oracle).selected_sites =
        specPrefixNonErrorSelection results max_selected ∧
      (select_sites results max_selected oracle).selected_sites.length ≤ max_selected ∧
      ∀ e ∈ (select_sites results max_selected oracle).selected_sites,
        e.confidence = 7 ∧
        e.reason = "Fallback selection due to LLM analysis failure" ∧
        ∃ j, ∃ hj : j < results.length, j < max_selected ∧
          (results.get ⟨j, hj⟩).hasError = false ∧
          e = mkFallbackEntry j (results.get ⟨j, hj⟩) := by
  rw [select_sites_of_isFailure results max_selected hfail]
  refine ⟨fallback_selection_eq_spec results max_selected,
    length_fallback_selection_le results max_selected, ?_⟩
  intro e he
  obtain ⟨j, hj, hjm, hok, hee⟩ := mem_fallback_selection he
  exact ⟨by rw [hee]; rfl, by rw [hee]; rfl, j, hj, hjm, hok, hee⟩

/-- C5 witness: a concrete failed-Judge run on `[good, error, good]` with
`max_selected = 2`: the selection equals the amended description and
contains exactly the non-error candidate of the sliced prefix. -/
theorem c5_fallback_selection_contents_witness :
    (select_sites [sampleTarget, sampleError, sampleOther] 2
        (OracleCall.apiError "net down")).selected_sites =
      specPrefixNonErrorSelection [sampleTarget, sampleError, sampleOther] 2 :=
  (c5_fallback_selection_contents [sampleTarget, sampleError, sampleOther] 2
    (OracleCall.apiError "net down") rfl).1

/-- C6 counterexample: when the oracle returns text that parses as valid
JSON but not as a list, `select_sites` fails (the raised `ValueError` lands
in the generic handler) yet sets `raw_llm_response` to `None`: the raw
oracle text is not preserved on this failure, contrary to the claim. -/
theorem c6_raw_text_counterexample :
    (select_sites [] 3 (OracleCall.ok "plain text answer"
        ParseOutcome.notAList)).success = false ∧
      (select_sites [] 3 (OracleCall.ok "plain text answer"
        ParseOutcome.notAList)).raw_llm_response = none :=
  ⟨rfl, rfl⟩

/-- C6 (amended): for every query, candidate list and oracle behaviour,
`select_sites` always returns a record (modelled as totality), whose
`error` field is null exactly when the oracle output parsed successfully as
a list; the raw oracle text is preserved on the successful path and on the
JSON-decode-failure path, but it is `None` on a transport error and also on
the valid-JSON-but-not-a-list failure path. -/
theorem c6_totality_and_failure_signaling (results : List SearchResult)
    (max_sites : Nat) (oracle : OracleCall) :
    ((select_sites results max_sites oracle).error = none ↔
        (select_sites results max_sites oracle).success = true) ∧
      ((select_sites results max_sites oracle).success = true ↔
        ∃ raw items, oracle = OracleCall.ok raw (ParseOutcome.parsedList items)) ∧
      (∀ raw items, oracle = OracleCall.ok raw (ParseOutcome.parsedList items) →
        (select_sites results max_sites oracle).raw_llm_response = some raw) ∧
      (∀ raw msg, oracle = OracleCall.ok raw (ParseOutcome.decodeError msg) →
        (select_sites results max_sites oracle).raw_llm_response = some raw) ∧
      (∀ msg, oracle = OracleCall.apiError msg →
        (select_sites results max_sites oracle).raw_llm_response = none) ∧
      (∀ raw, oracle = OracleCall.ok raw ParseOutcome.notAList →
        (select_sites results max_sites oracle).raw_llm_response = none) := by
  cases oracle with
  | apiError msg => simp [select_sites]
  | ok raw p =>
      cases p with
      | decodeError msg => simp [select_sites]
      | notAList => simp [select_sites]
      | parsedList items => simp [select_sites]

/-- C6 witness: at a concrete JSON-decode failure the theorem yields raw
text preservation together with the failure signal. -/
theorem c6_totality_and_failure_signaling_witness :
    (select_sites [sampleTarget] 2 (OracleCall.ok "oops not json"
        (ParseOutcome.decodeError "Expecting value"))).raw_llm_response =
      some "oops not json" :=
  (c6_totality_and_failure_signaling [sampleTarget] 2
    (OracleCall.ok "oops not json" (ParseOutcome.decodeError "Expecting value"))).2.2.2.1
    "oops not json" "Expecting value" rfl

/-- C7: the artifact extraction on convergence takes the matching verdict
entry's `snippet` field if present and non-empty, otherwise its
`expected_content` field if present and non-empty, otherwise the target
candidate's own current snippet, in exactly that priority order. -/
theorem c7_artifact_extraction_priority (s : SelectedSite) (mcpSnippet : String) :
    (∀ t, s.snippet = some t → t ≠ "" → extractSnippet s mcpSnippet = t) ∧
      ((s.snippet = none ∨ s.snippet = some "") → s.expected_content ≠ "" →
        extractSnippet s mcpSnippet = s.expected_content) ∧
      ((s.snippet = none ∨ s.snippet = some "") → s.expected_content = "" →
        extractSnippet s mcpSnippet = mcpSnippet) := by
  refine ⟨?_, ?_, ?_⟩
  · intro t ht hne
    simp [extractSnippet, ht, hne]
  · rintro (h | h) hexp <;> simp [extractSnippet, h, hexp]
  · rintro (h | h) hexp <;> simp [extractSnippet, h, hexp]

/-- C7 witness: a verdict entry with no snippet field and a non-empty
expected-content yields the expected-content as artifact. -/
theorem c7_artifact_extraction_priority_witness :
    extractSnippet
      { url := "u", title := "t", confidence := 7, reason := "r",
        expected_content := "EU cloud facts", original_index := 0, snippet := none }
      "target snippet" = "EU cloud facts" :=
  (c7_artifact_extraction_priority _ "target snippet").2.1 (Or.inl rfl) (by decide)

/-- C8 counterexample: a well-formed oracle record carrying
`confidence = 15` is passed through unclamped by `select_sites`, so the
returned verdict has an entry with confidence outside [1,10]. -/
theorem c8_confidence_range_counterexample :
    ¬ (∀ e ∈ (select_sites [] 3 (OracleCall.ok "x"
        (ParseOutcome.parsedList [JItem.dict overConfSite]))).selected_sites,
        1 ≤ e.confidence ∧ e.confidence ≤ 10) := by
  decide

/-- C8 (amended): every fallback-path entry has confidence 7 ∈ [1,10], and
on the parsed path a missing confidence defaults to 5 ∈ [1,10], but
oracle-supplied confidence values are passed through unvalidated, so the
[1,10] invariant only holds when every record's confidence is absent or
already in range. -/
theorem c8_confidence_range (results : List SearchResult) (max_sites : Nat)
    (oracle : OracleCall) :
    (oracle.isFailure = true →
        ∀ e ∈ (select_sites results max_sites oracle).selected_sites,
          1 ≤ e.confidence ∧ e.confidence ≤ 10) ∧
      (∀ raw items, oracle = OracleCall.ok raw (ParseOutcome.parsedList items) →
        (∀ s : RawSite, JItem.dict s ∈ items →
          ∀ c, s.confidence = some c → 1 ≤ c ∧ c ≤ 10) →
        ∀ e ∈ (select_sites results max_sites oracle).selected_sites,
          1 ≤ e.confidence ∧ e.confidence ≤ 10) := by
  constructor
  · intro hfail e he
    rw [select_sites_of_isFailure results max_sites hfail] at he
    obtain ⟨j, hj, _, _, hee⟩ := mem_fallback_selection he
    rw [hee]
    constructor <;> norm_num [mkFallbackEntry]
  · rintro raw items rfl hconf e he
    simp only [select_sites] at he
    obtain ⟨s, hit, hu, hee⟩ := mem_validateSites he
    rw [hee]
    cases hs : s.confidence with
    | none => constructor <;> norm_num [validatedEntry, hs]
    | some c =>
        have hc : (validatedEntry s).confidence = c := by
          simp [validatedEntry, hs]
        rw [hc]
        exact hconf s hit c hs

/-- C8 witness: the fallback entry produced for `sampleTarget` by a
concrete failed-Judge run has confidence in [1,10]. -/
theorem c8_confidence_range_witness :
    1 ≤ (mkFallbackEntry 0 sampleTarget).confidence ∧
      (mkFallbackEntry 0 sampleTarget).confidence ≤ 10 :=
  (c8_confidence_range [sampleTarget] 3 (OracleCall.apiError "down")).1 rfl
    (mkFallbackEntry 0 sampleTarget) (by decide)

/-- C10: the successful-parse path does not enforce the `max_selected`
limit nor the confidence ≥ 6 rule (both exist only as prompt text and in
the fallback path): here a well-formed oracle output of four records, each
with a url and confidence 2, is returned in full by `select_sites` with
`max_sites = 3`. -/
theorem c10_no_limit_on_parsed_path :
    ((select_sites [] 3 (OracleCall.ok "raw" (ParseOutcome.parsedList
        [JItem.dict (lowConfSite 1), JItem.dict (lowConfSite 2),
          JItem.dict (lowConfSite 3), JItem.dict (lowConfSite 4)]))).selected_sites.length
        = 4) ∧
      3 < 4 ∧
      ∀ e ∈ (select_sites [] 3 (OracleCall.ok "raw" (ParseOutcome.parsedList
        [JItem.dict (lowConfSite 1), JItem.dict (lowConfSite 2),
          JItem.dict (lowConfSite 3), JItem.dict (lowConfSite 4)]))).selected_sites,
        e.confidence = 2 := by
  refine ⟨rfl, by decide, by decide⟩

/-- C10 witness: the first returned entry of the oversized parsed verdict
indeed carries confidence 2 (below the prompt's stated threshold of 6). -/
theorem c10_no_limit_on_parsed_path_witness :
    (validatedEntry (lowConfSite 1)).confidence = 2 :=
  c10_no_limit_on_parsed_path.2.2 (validatedEntry (lowConfSite 1)) (by decide)

/-- C1: in every round, the Loop reports convergence for the target
candidate exactly when some verdict entry satisfies at least one of:
position-reference equal to the target's position, title string-equal to
the target's current title, or url string-equal to the target's current
link; in particular a URL-only match (with wrong position-reference) still
yields convergence (see the witness). -/
theorem c1_triple_match_convergence (judges : Nat → OracleCall)
    (proposers : Nat → ProposerCall) (mcpIdx roundNum fuel : Nat)
    (results : List SearchResult) (jc pc : Nat) :
    ((loopAux judges proposers mcpIdx roundNum (fuel + 1) results jc pc).outcome.convergedAt
        = some roundNum) ↔
      ∃ s ∈ (select_sites results 3 (judges roundNum)).selected_sites,
        s.original_index = (mcpIdx : Int) ∨
          s.title = (results.getD mcpIdx default).title ∨
          s.url = (results.getD mcpIdx default).link := by
  rw [loopAux_succ]
  by_cases hsel : isSelected (select_sites results 3 (judges roundNum)).selected_sites
      mcpIdx (results.getD mcpIdx default).title (results.getD mcpIdx default).link = true
  · rw [if_pos hsel]
    exact ⟨fun _ => (isSelected_true_iff _ _ _ _).mp hsel, fun _ => rfl⟩
  · rw [if_neg hsel]
    constructor
    · intro h
      exfalso
      by_cases hsucc : (optimize_snippet (proposers roundNum)).success = true
      · rw [if_pos hsucc] at h
        have hle := loopAux_convergedAt_le fuel (roundNum + 1) _ _ _ roundNum h
        omega
      · rw [if_neg hsucc] at h
        simp [LoopOutcome.convergedAt] at h
    · intro hex
      exact absurd ((isSelected_true_iff _ _ _ _).mpr hex) hsel

/-- C1 witness: a verdict entry whose position-reference (99) is wrong and
whose title differs, but whose url equals the target's current link, still
makes round 1 converge. -/
theorem c1_triple_match_convergence_witness :
    (loopAux urlOnlyJudge okProposer 0 1 (0 + 1) [sampleTarget] 0 0).outcome.convergedAt
      = some 1 :=
  (c1_triple_match_convergence urlOnlyJudge okProposer 0 1 0 [sampleTarget] 0 0).mpr
    ⟨validatedEntry urlOnlySite, by decide, Or.inr (Or.inr (by decide))⟩

/-- C2: with a Judge double whose verdict never matches the target and an
Optimization Stage that always succeeds, the Loop executes exactly
`max_rounds` rounds, terminates Exhausted, and performs exactly
`max_rounds` Selection calls (so never more than `max_rounds`). -/
theorem c2_round_bound (judges : Nat → OracleCall) (proposers : Nat → ProposerCall)
    (mcpIdx maxRounds : Nat) (results : List SearchResult)
    (hjudge : ∀ n rs, isSelected (select_sites rs 3 (judges n)).selected_sites mcpIdx
        (rs.getD mcpIdx default).title (rs.getD mcpIdx default).link = false)
    (hprop : ∀ n, ∃ e, proposers n = ProposerCall.ok e) :
    (runLoop judges proposers mcpIdx maxRounds results).outcome =
        LoopOutcome.exhausted maxRounds ∧
      (runLoop judges proposers mcpIdx maxRounds results).judgeCalls = maxRounds ∧
      (runLoop judges proposers mcpIdx maxRounds results).proposerCalls = maxRounds := by
  obtain ⟨h1, h2, h3⟩ := loopAux_never_selected mcpIdx hjudge hprop maxRounds 1 results 0 0
  unfold runLoop
  refine ⟨?_, ?_, ?_⟩
  · rw [h1]; congr 1; omega
  · rw [h2]; omega
  · rw [h3]; omega

/-- C2 witness: a concrete never-selecting Judge double with an
always-succeeding Proposer runs exactly 3 of 3 rounds and exhausts. -/
theorem c2_round_bound_witness :
    (runLoop neverJudge okProposer 0 3 [sampleTarget]).outcome =
        LoopOutcome.exhausted 3 ∧
      (runLoop neverJudge okProposer 0 3 [sampleTarget]).judgeCalls = 3 ∧
      (runLoop neverJudge okProposer 0 3 [sampleTarget]).proposerCalls = 3 :=
  c2_round_bound neverJudge okProposer 0 3 [sampleTarget]
    (fun _ _ => rfl) (fun _ => ⟨_, rfl⟩)

/-- C3: if the round-1 verdict does not match the target and the
Optimization Stage fails, the Loop terminates immediately with an Aborted
outcome carrying the failure reason, after exactly one Judge call and one
Proposer call, and the candidate list is left as it was. -/
theorem c3_proposer_failure_aborts (judges : Nat → OracleCall)
    (proposers : Nat → ProposerCall) (mcpIdx maxRounds : Nat)
    (results : List SearchResult) (msg : String) (hmax : 1 ≤ maxRounds)
    (hsel : isSelected (select_sites results 3 (judges 1)).selected_sites mcpIdx
        (results.getD mcpIdx default).title (results.getD mcpIdx default).link = false)
    (hprop : proposers 1 = ProposerCall.raiseError msg) :
    runLoop judges proposers mcpIdx maxRounds results =
      ⟨LoopOutcome.aborted 1 msg, 1, 1, results⟩ := by
  obtain ⟨fuel, rfl⟩ : ∃ fuel, maxRounds = fuel + 1 := ⟨maxRounds - 1, by omega⟩
  unfold runLoop
  have hns : ¬ (isSelected (select_sites results 3 (judges 1)).selected_sites mcpIdx
      (results.getD mcpIdx default).title (results.getD mcpIdx default).link = true) := by
    rw [hsel]
    exact Bool.false_ne_true
  rw [loopAux_succ, if_neg hns, hprop,
    if_neg (show ¬ ((optimize_snippet (ProposerCall.raiseError msg)).success = true) from
      Bool.false_ne_true)]
  rfl

/-- C3 witness: a Proposer double raising a transport error on round 1
makes the concrete Loop return Aborted with that reason after one Judge
call and one Proposer call. -/
theorem c3_proposer_failure_aborts_witness :
    runLoop neverJudge failProposer 0 5 [sampleTarget] =
      ⟨LoopOutcome.aborted 1 "transport error: connection refused", 1, 1,
        [sampleTarget]⟩ :=
  c3_proposer_failure_aborts neverJudge failProposer 0 5 [sampleTarget]
    "transport error: connection refused" (by decide) rfl rfl

/-- C4: across every run of the Loop, every candidate at a position other
than the target's is unchanged (same title, link and snippet record), and
the list keeps its length, so the target's position never changes; only
the target's entry is ever overwritten. -/
theorem c4_frame_invariant (judges : Nat → OracleCall)
    (proposers : Nat → ProposerCall) (mcpIdx maxRounds : Nat)
    (results : List SearchResult) :
    ((runLoop judges proposers mcpIdx maxRounds results).finalResults.length
        = results.length) ∧
      ∀ j, j ≠ mcpIdx →
        (runLoop judges proposers mcpIdx maxRounds results).finalResults[j]?
          = results[j]? := by
  unfold runLoop
  exact loopAux_frame mcpIdx maxRounds 1 results 0 0

/-- C4 witness: in a concrete 2-round run that rewrites the target at
position 0, the candidate at position 1 is untouched. -/
theorem c4_frame_invariant_witness :
    (runLoop neverJudge okProposer 0 2 [sampleTarget, sampleOther]).finalResults[1]?
      = [sampleTarget, sampleOther][1]? :=
  (c4_frame_invariant neverJudge okProposer 0 2 [sampleTarget, sampleOther]).2 1
    (by decide)

/-- C9: if in some round the Judge Oracle call fails (or its output is
unparseable) while the target candidate is a non-error entry within the
first `max_sites = 3` positions, the fallback selection contains an entry
whose `original_index` equals the target's position, so that round reports
convergence. -/
theorem c9_judge_outage_convergence (judges : Nat → OracleCall)
    (proposers : Nat → ProposerCall) (mcpIdx roundNum fuel : Nat)
    (results : List SearchResult) (jc pc : Nat)
    (hfail : (judges roundNum).isFailure = true)
    (hidx : mcpIdx < 3) (hlen : mcpIdx < results.length)
    (herr : (results.getD mcpIdx default).hasError = false) :
    (loopAux judges proposers mcpIdx roundNum (fuel + 1) results jc pc).outcome.convergedAt
      = some roundNum := by
  have hsel : isSelected (select_sites results 3 (judges roundNum)).selected_sites mcpIdx
      (results.getD mcpIdx default).title (results.getD mcpIdx default).link = true := by
    rw [select_sites_of_isFailure results 3 hfail]
    obtain ⟨e, hmem, hidx'⟩ := fallback_selection_mem_of_index hidx hlen herr
    exact (isSelected_true_iff _ _ _ _).mpr ⟨e, hmem, Or.inl hidx'⟩
  rw [loopAux_succ, if_pos hsel]
  rfl

/-- C9 witness: a concrete Judge transport outage in round 1 with the
non-error target at position 0 converges in that round. -/
theorem c9_judge_outage_convergence_witness :
    (loopAux downJudge okProposer 0 1 (0 + 1) [sampleTarget] 0 0).outcome.convergedAt
      = some 1 :=
  c9_judge_outage_convergence downJudge okProposer 0 1 0 [sampleTarget] 0 0 rfl
    (by decide) (by decide) (by decide)

end Hackathon
